import Mathlib

/-!
Password-reset relay (`pwreset.go`): embedding and checked properties.

The Go file is embedded shallowly.  External collaborators (the user
directory, the filesystem, the JSON decoder, the clock, the notification
subsystem) are fields of a `World` record; every effect the code performs
is recorded as an `Action` in a trace, in program order.
-/

namespace PWReset

/-! ## Data model -/

/-- A Go `error` value: `none` is `nil`, `some m` is an error with message `m`. -/
abbrev GoError := Option String

/-- A Go `time.Time`, as the number of nanoseconds elapsed since the zero `Time`. -/
abbrev Time := Int

/-- The Go constant `time.Minute`, in nanoseconds. -/
def timeMinute : Int := 60 * 1000000000

/-- The part of the directory's user value that `pwreset.go` reads. -/
structure User where
  Name : String
  ID : String
deriving DecidableEq, Repr

/-- The struct `InternalPWR`, with the four fields `GenInternalReset` fills in. -/
structure InternalPWR where
  PIN : String
  Username : String
  ID : String
  Expiry : Time
deriving DecidableEq, Repr

/-- The struct `PasswordReset` (a passwordreset-xyz.json file written by Jellyfin). -/
structure PasswordReset where
  Pin : String
  Username : String
  Expiry : Time
  Internal : Bool
deriving DecidableEq, Repr

/-- The value a notification constructor hands to the delivery call. -/
abbrev Message := String

/-- An `fsnotify.Event`: an operation bit mask and a file name. -/
structure Event where
  Op : Nat
  Name : String
deriving DecidableEq, Repr

/-- The bit `fsnotify.Write` (`Create = 1 << iota`, then `Write`). -/
def fsnotifyWrite : Nat := 2

/-- The external collaborators, as they answer at the moment an event is handled. -/
structure World where
  genAuthToken : String
  now : Time
  UserByID : String → User × Int × GoError
  UserByName : String → User × Int × GoError
  ReadFile : String → String × GoError
  Unmarshal : String → PasswordReset × GoError
  getAddressOrName : String → String
  constructReset : PasswordReset → Bool → Message × GoError
  sendByID : Message → String → GoError
  urlBase : String

/-! ## `GenInternalReset` and `GenResetLink` -/

/-- The zero value `InternalPWR{}`. -/
def InternalPWR.zero : InternalPWR := { PIN := "", Username := "", ID := "", Expiry := 0 }

/-- The method `GenInternalReset`. -/
def GenInternalReset (w : World) (userID : String) : InternalPWR × GoError :=
  let pin := w.genAuthToken
  match w.UserByID userID with
  | (user, status, err) =>
    if err ≠ none ∨ status ≠ 200 then
      (InternalPWR.zero, err)
    else
      ({ PIN := pin, Username := user.Name, ID := userID, Expiry := w.now + 30 * timeMinute }, none)

/-- The error text of `GenResetLink` when no URL base is configured. -/
def noURLBaseError : String :=
  "disabled as no URL Base provided. Set in Settings > Password Resets."

/-- The method `GenResetLink`; `w.urlBase` is the configured `url_base` key. -/
def GenResetLink (w : World) (pin : String) : String × GoError :=
  let url := w.urlBase
  let pinLink := ""
  if url = "" then
    (pinLink, some noURLBaseError)
  else
    (url ++ "/reset?pin=" ++ pin, none)

/-! ## The event processor `pwrMonitor` -/

/-- The three loggers the processor writes to (`app.debug`, `app.info`, `app.err`). -/
inductive Level where
  | debug
  | info
  | err
deriving DecidableEq, Repr

/-- One log line: the format used (a `logmessages` constant, or the literal of
line 96) with the arguments passed to `Printf`. -/
inductive LogEntry where
  | FailedReading (name : String) (err : GoError)
  | NewPasswordReset (username : String)
  | FailedGetUser (username : String) (err : GoError)
  | FailedConstructPWRMessage (username : String) (err : GoError)
  | FailedSendPWRMessage (username : String) (name : String) (err : GoError)
  | SentPWRMessage (username : String) (name : String)
  | PWRExpired (username : String) (expiry : Time)
  | FailedStartDaemon (err : GoError)
deriving DecidableEq, Repr

/-- An observable effect of the processor, with the arguments of the call. -/
inductive Action where
  | readFile (name : String)
  | log (lvl : Level) (entry : LogEntry)
  | userByName (username : String)
  | getAddressOrName (uid : String)
  | constructReset (pwr : PasswordReset) (admin : Bool)
  | sendByID (msg : Message) (uid : String)
deriving DecidableEq, Repr

/-- Whether `sub` is an initial segment of `s`. -/
def startsWith : List Char → List Char → Bool
  | _, [] => true
  | [], _ :: _ => false
  | c :: cs, d :: ds => c == d && startsWith cs ds

/-- Whether `sub` occurs in `s` as a contiguous run. -/
def containsChars : List Char → List Char → Bool
  | [], sub => sub.isEmpty
  | c :: cs, sub => startsWith (c :: cs) sub || containsChars cs sub

/-- The Go function `strings.Contains`. -/
def stringsContains (s sub : String) : Bool := containsChars s.data sub.data

/-- What handling one event did, and whether `pwrMonitor` executed `return`. -/
structure Step where
  actions : List Action
  exit : Bool
deriving DecidableEq, Repr

/-- The body of `case event, ok := <-watcher.Events` for `ok = true`
(lines 84 to 120). -/
def handleEvent (w : World) (event : Event) : Step :=
  if event.Op &&& fsnotifyWrite = fsnotifyWrite ∧ stringsContains event.Name "passwordreset" = true then
    match w.ReadFile event.Name with
    | (data, err) =>
      if err ≠ none then
        ⟨[.readFile event.Name, .log .debug (.FailedReading event.Name err)], true⟩
      else
        match w.Unmarshal data with
        | (pwr, err) =>
          if pwr.Pin.length = 0 ∨ err ≠ none then
            ⟨[.readFile event.Name, .log .debug (.FailedReading event.Name err)], false⟩
          else
            let pre : List Action :=
              [.readFile event.Name, .log .info (.NewPasswordReset pwr.Username)]
            let currentTime := w.now
            if pwr.Expiry > currentTime then
              match w.UserByName pwr.Username with
              | (user, status, err) =>
                if ¬ (status = 200 ∨ status = 204) ∨ err ≠ none ∨ user.ID = "" then
                  ⟨pre ++ [.userByName pwr.Username,
                    .log .err (.FailedGetUser pwr.Username err)], true⟩
                else
                  let uid := user.ID
                  let name := w.getAddressOrName uid
                  let pre2 := pre ++ [.userByName pwr.Username, .getAddressOrName uid]
                  if name ≠ "" then
                    match w.constructReset pwr false with
                    | (msg, err) =>
                      if err ≠ none then
                        ⟨pre2 ++ [.constructReset pwr false,
                          .log .err (.FailedConstructPWRMessage pwr.Username err)], false⟩
                      else
                        match w.sendByID msg uid with
                        | some e =>
                          ⟨pre2 ++ [.constructReset pwr false, .sendByID msg uid,
                            .log .err (.FailedSendPWRMessage pwr.Username name (some e))], false⟩
                        | none =>
                          ⟨pre2 ++ [.constructReset pwr false, .sendByID msg uid,
                            .log .err (.SentPWRMessage pwr.Username name)], false⟩
                  else
                    ⟨pre2, false⟩
            else
              ⟨pre ++ [.log .err (.PWRExpired pwr.Username pwr.Expiry)], false⟩
  else
    ⟨[], false⟩

/-- What the `select` of one loop iteration received: a value from one of the
two channels, or the discovery that a channel is closed (`ok = false`). -/
inductive Recv where
  | event (e : Event)
  | eventsClosed
  | error (err : GoError)
  | errorsClosed
deriving DecidableEq, Repr

/-- A run of `pwrMonitor`: the effects in program order, and whether the
function returned (otherwise it is waiting in `select`). -/
structure Run where
  trace : List Action
  returned : Bool
deriving DecidableEq, Repr

/-- The `for { select { ... } }` loop of `pwrMonitor` over the sequence of
receptions, each with the world as it is while that reception is handled. -/
def monitorLoop : List (World × Recv) → Run
  | [] => ⟨[], false⟩
  | (w, .event e) :: rest =>
    let s := handleEvent w e
    if s.exit then ⟨s.actions, true⟩
    else ⟨s.actions ++ (monitorLoop rest).trace, (monitorLoop rest).returned⟩
  | (_, .eventsClosed) :: _ => ⟨[], true⟩
  | (_, .error err) :: rest =>
    ⟨.log .err (.FailedStartDaemon err) :: (monitorLoop rest).trace, (monitorLoop rest).returned⟩
  | (_, .errorsClosed) :: _ => ⟨[], true⟩

/-- The function `pwrMonitor`; `emailEnabled` is the package-level flag. -/
def pwrMonitor (emailEnabled : Bool) (inputs : List (World × Recv)) : Run :=
  if ¬ emailEnabled then ⟨[], true⟩ else monitorLoop inputs

/-! ## Projections of a trace -/

/-- The delivery attempt an action is, if it is one: message and user ID. -/
def Action.asDelivery : Action → Option (Message × String)
  | .sendByID msg uid => some (msg, uid)
  | _ => none

/-- The `UserByName` call an action is, if it is one. -/
def Action.asLookup : Action → Option String
  | .userByName n => some n
  | _ => none

/-- The notification construction an action is, if it is one. -/
def Action.asConstruction : Action → Option (PasswordReset × Bool)
  | .constructReset p a => some (p, a)
  | _ => none

/-- The file read an action is, if it is one. -/
def Action.asRead : Action → Option String
  | .readFile n => some n
  | _ => none

/-- The log line an action is, if it is one. -/
def Action.asLog : Action → Option (Level × LogEntry)
  | .log l e => some (l, e)
  | _ => none

/-- What a log line says of a delivery attempt, if it reports one: username,
recipient, and the error of the attempt (`none` for a sent message). -/
def Action.asDeliveryReport : Action → Option (String × String × GoError)
  | .log .err (.FailedSendPWRMessage u n e) => some (u, n, e)
  | .log .err (.SentPWRMessage u n) => some (u, n, none)
  | _ => none

/-- The delivery attempts of a trace, in order. -/
def deliveries (t : List Action) : List (Message × String) := t.filterMap Action.asDelivery

/-- The `UserByName` calls of a trace, in order. -/
def lookups (t : List Action) : List String := t.filterMap Action.asLookup

/-- The notification constructions of a trace, in order. -/
def constructions (t : List Action) : List (PasswordReset × Bool) :=
  t.filterMap Action.asConstruction

/-- The file reads of a trace, in order. -/
def reads (t : List Action) : List String := t.filterMap Action.asRead

/-- The log lines of a trace, in order. -/
def logs (t : List Action) : List (Level × LogEntry) := t.filterMap Action.asLog

/-- The delivery reports logged in a trace, in order. -/
def deliveryReports (t : List Action) : List (String × String × GoError) :=
  t.filterMap Action.asDeliveryReport

/-! ## What the world answers for an event

The answers the collaborators give along the path of one event, and the
conditions of the pipeline stages in terms of them. -/

/-- The event passes the filter of line 84. -/
abbrev isResetWrite (ev : Event) : Prop :=
  ev.Op &&& fsnotifyWrite = fsnotifyWrite ∧ stringsContains ev.Name "passwordreset" = true

/-- The bytes `os.ReadFile` returns for the event's file. -/
abbrev fileData (w : World) (ev : Event) : String := (w.ReadFile ev.Name).1

/-- The error `os.ReadFile` returns for the event's file. -/
abbrev readErr (w : World) (ev : Event) : GoError := (w.ReadFile ev.Name).2

/-- The record `json.Unmarshal` leaves in `pwr` for the file's bytes. -/
abbrev decoded (w : World) (ev : Event) : PasswordReset := (w.Unmarshal (fileData w ev)).1

/-- The error `json.Unmarshal` returns for the file's bytes. -/
abbrev decodeErr (w : World) (ev : Event) : GoError := (w.Unmarshal (fileData w ev)).2

/-- The user `UserByName` returns for the decoded username. -/
abbrev lookupUser (w : World) (ev : Event) : User := (w.UserByName (decoded w ev).Username).1

/-- The status `UserByName` returns for the decoded username. -/
abbrev lookupStatus (w : World) (ev : Event) : Int := (w.UserByName (decoded w ev).Username).2.1

/-- The error `UserByName` returns for the decoded username. -/
abbrev lookupErr (w : World) (ev : Event) : GoError := (w.UserByName (decoded w ev).Username).2.2

/-- The address `getAddressOrName` returns for the looked-up user ID. -/
abbrev address (w : World) (ev : Event) : String := w.getAddressOrName (lookupUser w ev).ID

/-- The message `constructReset` returns for the decoded record. -/
abbrev built (w : World) (ev : Event) : Message := (w.constructReset (decoded w ev) false).1

/-- The error `constructReset` returns for the decoded record. -/
abbrev buildErr (w : World) (ev : Event) : GoError := (w.constructReset (decoded w ev) false).2

/-- The error `sendByID` returns for the built message and the looked-up ID. -/
abbrev sendErr (w : World) (ev : Event) : GoError := w.sendByID (built w ev) (lookupUser w ev).ID

/-- The file of a write event on a marked file is read without error. -/
abbrev ReadOK (w : World) (ev : Event) : Prop := isResetWrite ev ∧ readErr w ev = none

/-- The file is read and decodes without error to a record with non-empty PIN. -/
abbrev DecodedOK (w : World) (ev : Event) : Prop :=
  ReadOK w ev ∧ decodeErr w ev = none ∧ (decoded w ev).Pin ≠ ""

/-- The decoded record's expiry is strictly after the current time. -/
abbrev Unexpired (w : World) (ev : Event) : Prop :=
  DecodedOK w ev ∧ (decoded w ev).Expiry > w.now

/-- The user lookup answers status 200 or 204, no error and a non-empty ID. -/
abbrev LookupOK (w : World) (ev : Event) : Prop :=
  (lookupStatus w ev = 200 ∨ lookupStatus w ev = 204) ∧ lookupErr w ev = none
    ∧ (lookupUser w ev).ID ≠ ""

/-- The record is unexpired and its user resolves. -/
abbrev Resolved (w : World) (ev : Event) : Prop := Unexpired w ev ∧ LookupOK w ev

/-- The user resolves and has a non-empty address. -/
abbrev Addressed (w : World) (ev : Event) : Prop := Resolved w ev ∧ address w ev ≠ ""

/-- Every condition before the delivery call holds: the message is constructed. -/
abbrev Deliverable (w : World) (ev : Event) : Prop := Addressed w ev ∧ buildErr w ev = none

/-- The read of a write event on a marked file fails. -/
abbrev ReadFails (w : World) (ev : Event) : Prop := isResetWrite ev ∧ readErr w ev ≠ none

/-- The file is read, and decoding errors or leaves an empty PIN. -/
abbrev DecodeFails (w : World) (ev : Event) : Prop :=
  ReadOK w ev ∧ (decodeErr w ev ≠ none ∨ (decoded w ev).Pin = "")

/-- The record decodes and its expiry is not strictly after the current time. -/
abbrev Expired (w : World) (ev : Event) : Prop :=
  DecodedOK w ev ∧ (decoded w ev).Expiry ≤ w.now

/-- The record is unexpired and the user lookup fails. -/
abbrev ResolutionFails (w : World) (ev : Event) : Prop := Unexpired w ev ∧ ¬ LookupOK w ev

/-- The user resolves and has an empty address. -/
abbrev EmptyAddress (w : World) (ev : Event) : Prop := Resolved w ev ∧ address w ev = ""

/-- The user has an address and `constructReset` errors. -/
abbrev ConstructFails (w : World) (ev : Event) : Prop := Addressed w ev ∧ buildErr w ev ≠ none

/-- The message is constructed and `sendByID` errors. -/
abbrev SendFails (w : World) (ev : Event) : Prop := Deliverable w ev ∧ sendErr w ev ≠ none

/-- A sequence of receptions made of events only, in their order of arrival. -/
def eventsOf (inputs : List (World × Event)) : List (World × Recv) :=
  inputs.map (fun i => (i.1, Recv.event i.2))

/-! ## Sample worlds -/

/-- The records the sample decoder yields, by file contents. -/
def sampleUnmarshal (d : String) : PasswordReset × GoError :=
  if d = "alice-file" then (⟨"abc123", "alice", 2000, false⟩, none)
  else if d = "bob-file" then (⟨"def456", "bob", 2000, false⟩, none)
  else if d = "carol-file" then (⟨"ghi789", "carol", 2000, false⟩, none)
  else if d = "dave-file" then (⟨"jkl012", "dave", 2000, false⟩, none)
  else if d = "erin-file" then (⟨"mno345", "erin", 2000, false⟩, none)
  else if d = "nopin-file" then (⟨"", "alice", 2000, false⟩, none)
  else (⟨"", "", 0, false⟩, some "invalid character")

/-- The sample directory: `alice` (204), `bob`, `dave` and `erin` exist, nobody else. -/
def sampleUserByName (n : String) : User × Int × GoError :=
  if n = "alice" then (⟨"alice", "u1"⟩, 204, none)
  else if n = "bob" then (⟨"bob", "u2"⟩, 200, none)
  else if n = "dave" then (⟨"dave", "u4"⟩, 200, none)
  else if n = "erin" then (⟨"erin", "u5"⟩, 200, none)
  else (⟨"", ""⟩, 404, some "not found")

/-- The sample filesystem: files 1 to 6 and 8 are readable, nothing else. -/
def sampleReadFile (n : String) : String × GoError :=
  if n = "passwordreset-1.json" then ("alice-file", none)
  else if n = "passwordreset-2.json" then ("bob-file", none)
  else if n = "passwordreset-3.json" then ("not json", none)
  else if n = "passwordreset-4.json" then ("carol-file", none)
  else if n = "passwordreset-5.json" then ("dave-file", none)
  else if n = "passwordreset-6.json" then ("erin-file", none)
  else if n = "passwordreset-8.json" then ("nopin-file", none)
  else ("", some "permission denied")

/-- A world at time 1000 with the sample directory and filesystem: `alice` and
`bob` have addresses, `dave` has none, no message can be built for `erin`, and
deliveries to `bob` fail. -/
def sampleWorld : World where
  genAuthToken := "tok"
  now := 1000
  UserByID := fun id =>
    if id = "u1" then (⟨"alice", "u1"⟩, 200, none) else (⟨"", ""⟩, 404, none)
  UserByName := sampleUserByName
  ReadFile := sampleReadFile
  Unmarshal := sampleUnmarshal
  getAddressOrName := fun uid =>
    if uid = "u1" then "alice@example.org" else if uid = "u2" then "bob@example.org"
    else if uid = "u5" then "erin@example.org" else ""
  constructReset := fun p _ =>
    if p.Username = "erin" then ("", some "template missing") else ("reset " ++ p.Pin, none)
  sendByID := fun _ uid => if uid = "u2" then some "smtp down" else none
  urlBase := "https://host/app"

/-- The sample world at the instant the sample records expire. -/
def lateWorld : World := { sampleWorld with now := 2000 }

/-- The sample world with no URL base configured. -/
def bareWorld : World := { sampleWorld with urlBase := "" }

/-- A write event on sample file number `k` (a decimal digit as text). -/
def writeOf (k : String) : Event := ⟨fsnotifyWrite, "passwordreset-" ++ k ++ ".json"⟩

/-! ## The paths of `handleEvent`

One lemma for each way through lines 84 to 120. -/

theorem length_eq_zero_iff_empty (s : String) : s.length = 0 ↔ s = "" := by
  constructor
  · intro h
    have hd : s.data = [] := List.length_eq_zero.mp h
    exact String.ext hd
  · rintro rfl
    rfl

/-- The function `handleEvent` with every tuple result read through its
components: the same decisions, in the same order. -/
theorem handleEvent_eq (w : World) (ev : Event) :
    handleEvent w ev =
      if isResetWrite ev then
        if readErr w ev ≠ none then
          ⟨[.readFile ev.Name, .log .debug (.FailedReading ev.Name (readErr w ev))], true⟩
        else if (decoded w ev).Pin.length = 0 ∨ decodeErr w ev ≠ none then
          ⟨[.readFile ev.Name, .log .debug (.FailedReading ev.Name (decodeErr w ev))], false⟩
        else if (decoded w ev).Expiry > w.now then
          if ¬ (lookupStatus w ev = 200 ∨ lookupStatus w ev = 204) ∨ lookupErr w ev ≠ none
              ∨ (lookupUser w ev).ID = "" then
            ⟨[.readFile ev.Name, .log .info (.NewPasswordReset (decoded w ev).Username),
              .userByName (decoded w ev).Username,
              .log .err (.FailedGetUser (decoded w ev).Username (lookupErr w ev))], true⟩
          else if address w ev ≠ "" then
            if buildErr w ev ≠ none then
              ⟨[.readFile ev.Name, .log .info (.NewPasswordReset (decoded w ev).Username),
                .userByName (decoded w ev).Username, .getAddressOrName (lookupUser w ev).ID,
                .constructReset (decoded w ev) false,
                .log .err (.FailedConstructPWRMessage (decoded w ev).Username (buildErr w ev))],
                false⟩
            else
              ⟨[.readFile ev.Name, .log .info (.NewPasswordReset (decoded w ev).Username),
                .userByName (decoded w ev).Username, .getAddressOrName (lookupUser w ev).ID,
                .constructReset (decoded w ev) false,
                .sendByID (built w ev) (lookupUser w ev).ID,
                .log .err (match sendErr w ev with
                  | some e => .FailedSendPWRMessage (decoded w ev).Username (address w ev) (some e)
                  | none => .SentPWRMessage (decoded w ev).Username (address w ev))], false⟩
          else
            ⟨[.readFile ev.Name, .log .info (.NewPasswordReset (decoded w ev).Username),
              .userByName (decoded w ev).Username, .getAddressOrName (lookupUser w ev).ID],
              false⟩
        else
          ⟨[.readFile ev.Name, .log .info (.NewPasswordReset (decoded w ev).Username),
            .log .err (.PWRExpired (decoded w ev).Username (decoded w ev).Expiry)], false⟩
      else
        ⟨[], false⟩ := by
  unfold handleEvent
  simp only [readErr, decoded, decodeErr, fileData, lookupUser, lookupStatus, lookupErr,
    address, built, buildErr, sendErr]
  generalize w.sendByID _ _ = r
  cases r <;> rfl

theorem handleEvent_skip (w : World) (ev : Event) (h : ¬ isResetWrite ev) :
    handleEvent w ev = ⟨[], false⟩ := by
  rw [handleEvent_eq, if_neg h]

theorem handleEvent_readFails (w : World) (ev : Event) (h : ReadFails w ev) :
    handleEvent w ev =
      ⟨[.readFile ev.Name, .log .debug (.FailedReading ev.Name (readErr w ev))], true⟩ := by
  rw [handleEvent_eq, if_pos h.1, if_pos h.2]

theorem pin_length_zero_or (w : World) (ev : Event) :
    ((decoded w ev).Pin.length = 0 ∨ decodeErr w ev ≠ none) ↔
      (decodeErr w ev ≠ none ∨ (decoded w ev).Pin = "") := by
  rw [length_eq_zero_iff_empty, or_comm]

theorem handleEvent_decodeFails (w : World) (ev : Event) (h : DecodeFails w ev) :
    handleEvent w ev =
      ⟨[.readFile ev.Name, .log .debug (.FailedReading ev.Name (decodeErr w ev))], false⟩ := by
  rw [handleEvent_eq, if_pos h.1.1, if_neg (not_not.mpr h.1.2),
    if_pos ((pin_length_zero_or w ev).mpr h.2)]

/-- Past the decoder: the two conditions that fail are those of lines 87 and 92. -/
theorem handleEvent_decoded (w : World) (ev : Event) (h : DecodedOK w ev) :
    handleEvent w ev =
      if (decoded w ev).Expiry > w.now then
        if ¬ (lookupStatus w ev = 200 ∨ lookupStatus w ev = 204) ∨ lookupErr w ev ≠ none
            ∨ (lookupUser w ev).ID = "" then
          ⟨[.readFile ev.Name, .log .info (.NewPasswordReset (decoded w ev).Username),
            .userByName (decoded w ev).Username,
            .log .err (.FailedGetUser (decoded w ev).Username (lookupErr w ev))], true⟩
        else if address w ev ≠ "" then
          if buildErr w ev ≠ none then
            ⟨[.readFile ev.Name, .log .info (.NewPasswordReset (decoded w ev).Username),
              .userByName (decoded w ev).Username, .getAddressOrName (lookupUser w ev).ID,
              .constructReset (decoded w ev) false,
              .log .err (.FailedConstructPWRMessage (decoded w ev).Username (buildErr w ev))],
              false⟩
          else
            ⟨[.readFile ev.Name, .log .info (.NewPasswordReset (decoded w ev).Username),
              .userByName (decoded w ev).Username, .getAddressOrName (lookupUser w ev).ID,
              .constructReset (decoded w ev) false,
              .sendByID (built w ev) (lookupUser w ev).ID,
              .log .err (match sendErr w ev with
                | some e => .FailedSendPWRMessage (decoded w ev).Username (address w ev) (some e)
                | none => .SentPWRMessage (decoded w ev).Username (address w ev))], false⟩
        else
          ⟨[.readFile ev.Name, .log .info (.NewPasswordReset (decoded w ev).Username),
            .userByName (decoded w ev).Username, .getAddressOrName (lookupUser w ev).ID],
            false⟩
      else
        ⟨[.readFile ev.Name, .log .info (.NewPasswordReset (decoded w ev).Username),
          .log .err (.PWRExpired (decoded w ev).Username (decoded w ev).Expiry)], false⟩ := by
  have hd : ¬ ((decoded w ev).Pin.length = 0 ∨ decodeErr w ev ≠ none) := by
    rw [pin_length_zero_or]
    rintro (hc | hc)
    · exact hc h.2.1
    · exact h.2.2 hc
  rw [handleEvent_eq, if_pos h.1.1, if_neg (not_not.mpr h.1.2), if_neg hd]

theorem handleEvent_expired (w : World) (ev : Event) (h : Expired w ev) :
    handleEvent w ev =
      ⟨[.readFile ev.Name, .log .info (.NewPasswordReset (decoded w ev).Username),
        .log .err (.PWRExpired (decoded w ev).Username (decoded w ev).Expiry)], false⟩ := by
  rw [handleEvent_decoded w ev h.1, if_neg (not_lt.mpr h.2)]

theorem lookup_guard_iff (w : World) (ev : Event) :
    (¬ (lookupStatus w ev = 200 ∨ lookupStatus w ev = 204) ∨ lookupErr w ev ≠ none
      ∨ (lookupUser w ev).ID = "") ↔ ¬ LookupOK w ev := by
  unfold LookupOK
  tauto

theorem handleEvent_resolutionFails (w : World) (ev : Event) (h : ResolutionFails w ev) :
    handleEvent w ev =
      ⟨[.readFile ev.Name, .log .info (.NewPasswordReset (decoded w ev).Username),
        .userByName (decoded w ev).Username,
        .log .err (.FailedGetUser (decoded w ev).Username (lookupErr w ev))], true⟩ := by
  rw [handleEvent_decoded w ev h.1.1, if_pos h.1.2, if_pos ((lookup_guard_iff w ev).mpr h.2)]

theorem handleEvent_emptyAddress (w : World) (ev : Event) (h : EmptyAddress w ev) :
    handleEvent w ev =
      ⟨[.readFile ev.Name, .log .info (.NewPasswordReset (decoded w ev).Username),
        .userByName (decoded w ev).Username, .getAddressOrName (lookupUser w ev).ID],
        false⟩ := by
  rw [handleEvent_decoded w ev h.1.1.1, if_pos h.1.1.2,
    if_neg (fun hc => (lookup_guard_iff w ev).mp hc h.1.2), if_neg (not_not.mpr h.2)]

theorem handleEvent_constructFails (w : World) (ev : Event) (h : ConstructFails w ev) :
    handleEvent w ev =
      ⟨[.readFile ev.Name, .log .info (.NewPasswordReset (decoded w ev).Username),
        .userByName (decoded w ev).Username, .getAddressOrName (lookupUser w ev).ID,
        .constructReset (decoded w ev) false,
        .log .err (.FailedConstructPWRMessage (decoded w ev).Username (buildErr w ev))],
        false⟩ := by
  rw [handleEvent_decoded w ev h.1.1.1.1, if_pos h.1.1.1.2,
    if_neg (fun hc => (lookup_guard_iff w ev).mp hc h.1.1.2), if_pos h.1.2, if_pos h.2]

theorem handleEvent_deliverable (w : World) (ev : Event) (h : Deliverable w ev) :
    handleEvent w ev =
      ⟨[.readFile ev.Name, .log .info (.NewPasswordReset (decoded w ev).Username),
        .userByName (decoded w ev).Username, .getAddressOrName (lookupUser w ev).ID,
        .constructReset (decoded w ev) false,
        .sendByID (built w ev) (lookupUser w ev).ID,
        .log .err (match sendErr w ev with
          | some e => .FailedSendPWRMessage (decoded w ev).Username (address w ev) (some e)
          | none => .SentPWRMessage (decoded w ev).Username (address w ev))], false⟩ := by
  rw [handleEvent_decoded w ev h.1.1.1.1, if_pos h.1.1.1.2,
    if_neg (fun hc => (lookup_guard_iff w ev).mp hc h.1.1.2), if_pos h.1.2,
    if_neg (not_not.mpr h.2)]

/-- Every event is on exactly one of the eight paths. -/
theorem path_cases (w : World) (ev : Event) :
    ¬ isResetWrite ev ∨ ReadFails w ev ∨ DecodeFails w ev ∨ Expired w ev
      ∨ ResolutionFails w ev ∨ EmptyAddress w ev ∨ ConstructFails w ev ∨ Deliverable w ev := by
  by_cases h1 : isResetWrite ev
  swap
  · exact Or.inl h1
  by_cases h2 : readErr w ev = none
  swap
  · exact Or.inr (Or.inl ⟨h1, h2⟩)
  by_cases h3 : decodeErr w ev = none ∧ (decoded w ev).Pin ≠ ""
  swap
  · refine Or.inr (Or.inr (Or.inl ⟨⟨h1, h2⟩, ?_⟩))
    by_contra hc
    push_neg at hc
    exact h3 ⟨hc.1, hc.2⟩
  by_cases h4 : (decoded w ev).Expiry > w.now
  swap
  · exact Or.inr (Or.inr (Or.inr (Or.inl ⟨⟨⟨h1, h2⟩, h3⟩, not_lt.mp h4⟩)))
  by_cases h5 : LookupOK w ev
  swap
  · exact Or.inr (Or.inr (Or.inr (Or.inr (Or.inl ⟨⟨⟨⟨h1, h2⟩, h3⟩, h4⟩, h5⟩))))
  by_cases h6 : address w ev = ""
  · exact Or.inr (Or.inr (Or.inr (Or.inr (Or.inr (Or.inl ⟨⟨⟨⟨⟨h1, h2⟩, h3⟩, h4⟩, h5⟩, h6⟩)))))
  by_cases h7 : buildErr w ev = none
  · exact Or.inr (Or.inr (Or.inr (Or.inr (Or.inr (Or.inr (Or.inr
      ⟨⟨⟨⟨⟨⟨h1, h2⟩, h3⟩, h4⟩, h5⟩, h6⟩, h7⟩))))))
  · exact Or.inr (Or.inr (Or.inr (Or.inr (Or.inr (Or.inr (Or.inl
      ⟨⟨⟨⟨⟨⟨h1, h2⟩, h3⟩, h4⟩, h5⟩, h6⟩, h7⟩))))))

/-! ## The loop -/

theorem pwrMonitor_enabled (inputs : List (World × Recv)) :
    pwrMonitor true inputs = monitorLoop inputs := by
  simp [pwrMonitor]

theorem monitorLoop_continue (w : World) (ev : Event) (rest : List (World × Recv))
    (h : (handleEvent w ev).exit = false) :
    monitorLoop ((w, .event ev) :: rest) =
      ⟨(handleEvent w ev).actions ++ (monitorLoop rest).trace, (monitorLoop rest).returned⟩ := by
  simp [monitorLoop, h]

theorem monitorLoop_exit (w : World) (ev : Event) (rest : List (World × Recv))
    (h : (handleEvent w ev).exit = true) :
    monitorLoop ((w, .event ev) :: rest) = ⟨(handleEvent w ev).actions, true⟩ := by
  simp [monitorLoop, h]

/-- Once an event makes the processor return, what was to arrive later has no
effect on the run. -/
theorem monitorLoop_exit_cuts (w : World) (ev : Event) (h : (handleEvent w ev).exit = true)
    (pre rest : List (World × Recv)) :
    monitorLoop (pre ++ (w, .event ev) :: rest) = monitorLoop (pre ++ [(w, .event ev)]) := by
  induction pre with
  | nil => simp [monitorLoop, h]
  | cons x pre ih =>
    obtain ⟨v, r⟩ := x
    cases r with
    | event e =>
      by_cases he : (handleEvent v e).exit = true
      · simp [monitorLoop, he]
      · simp [monitorLoop, he, ih]
    | eventsClosed => simp [monitorLoop]
    | error err => simp [monitorLoop, ih]
    | errorsClosed => simp [monitorLoop]

/-- A run that contains an event making the processor return has returned. -/
theorem monitorLoop_exit_returned (w : World) (ev : Event)
    (h : (handleEvent w ev).exit = true) (pre rest : List (World × Recv)) :
    (monitorLoop (pre ++ (w, .event ev) :: rest)).returned = true := by
  induction pre with
  | nil => simp [monitorLoop, h]
  | cons x pre ih =>
    obtain ⟨v, r⟩ := x
    cases r with
    | event e =>
      by_cases he : (handleEvent v e).exit = true
      · simp [monitorLoop, he]
      · simp [monitorLoop, he, ih]
    | eventsClosed => simp [monitorLoop]
    | error err => simp [monitorLoop, ih]
    | errorsClosed => simp [monitorLoop]

/-! ## `strings.Contains` -/

theorem startsWith_iff (s sub : List Char) :
    startsWith s sub = true ↔ ∃ b, s = sub ++ b := by
  induction sub generalizing s with
  | nil => simp [startsWith]
  | cons d ds ih =>
    cases s with
    | nil => simp [startsWith]
    | cons c cs =>
      simp only [startsWith, Bool.and_eq_true, beq_iff_eq, ih, List.cons_append,
        List.cons.injEq]
      constructor
      · rintro ⟨rfl, b, rfl⟩
        exact ⟨b, rfl, rfl⟩
      · rintro ⟨b, rfl, rfl⟩
        exact ⟨rfl, b, rfl⟩

/-- The model of `strings.Contains` holds exactly of the strings in which the
needle occurs as a contiguous run. -/
theorem containsChars_iff (s sub : List Char) :
    containsChars s sub = true ↔ ∃ a b, s = a ++ sub ++ b := by
  induction s with
  | nil =>
    cases sub with
    | nil => simp [containsChars]
    | cons d ds => simp [containsChars]
  | cons c cs ih =>
    simp only [containsChars, Bool.or_eq_true, startsWith_iff, ih]
    constructor
    · rintro (⟨b, hb⟩ | ⟨a, b, hab⟩)
      · exact ⟨[], b, by simpa using hb⟩
      · exact ⟨c :: a, b, by simp [hab]⟩
    · rintro ⟨a, b, hab⟩
      cases a with
      | nil => exact Or.inl ⟨b, by simpa using hab⟩
      | cons x a =>
        simp only [List.cons_append, List.cons.injEq] at hab
        exact Or.inr ⟨a, b, hab.2⟩

theorem stringsContains_iff (s sub : String) :
    stringsContains s sub = true ↔ ∃ a b : List Char, s.data = a ++ sub.data ++ b :=
  containsChars_iff s.data sub.data

/-! ## Deliveries of one event -/

theorem deliveries_append (a b : List Action) :
    deliveries (a ++ b) = deliveries a ++ deliveries b := by
  simp [deliveries, List.filterMap_append]

theorem deliveryReports_append (a b : List Action) :
    deliveryReports (a ++ b) = deliveryReports a ++ deliveryReports b := by
  simp [deliveryReports, List.filterMap_append]

theorem deliveries_deliverable (w : World) (ev : Event) (h : Deliverable w ev) :
    deliveries (handleEvent w ev).actions = [(built w ev, (lookupUser w ev).ID)] := by
  rw [handleEvent_deliverable w ev h]
  rfl

theorem constructions_deliverable (w : World) (ev : Event) (h : Deliverable w ev) :
    constructions (handleEvent w ev).actions = [(decoded w ev, false)] := by
  rw [handleEvent_deliverable w ev h]
  rfl

theorem deliveryReports_deliverable (w : World) (ev : Event) (h : Deliverable w ev) :
    deliveryReports (handleEvent w ev).actions =
      [((decoded w ev).Username, address w ev, sendErr w ev)] := by
  rw [handleEvent_deliverable w ev h]
  cases hs : sendErr w ev <;> rfl

theorem deliveries_not_deliverable (w : World) (ev : Event) (h : ¬ Deliverable w ev) :
    deliveries (handleEvent w ev).actions = [] := by
  rcases path_cases w ev with c | c | c | c | c | c | c | c
  · rw [handleEvent_skip w ev c]
    rfl
  · rw [handleEvent_readFails w ev c]
    rfl
  · rw [handleEvent_decodeFails w ev c]
    rfl
  · rw [handleEvent_expired w ev c]
    rfl
  · rw [handleEvent_resolutionFails w ev c]
    rfl
  · rw [handleEvent_emptyAddress w ev c]
    rfl
  · rw [handleEvent_constructFails w ev c]
    rfl
  · exact absurd c h

/-! ## `GenInternalReset` and `GenResetLink`: the claims -/

/-- On the failure branch of line 18 the record is the zero value and the
error returned is the very error of the lookup. -/
theorem GenInternalReset_on_failure (w : World) (userID : String)
    (h : (w.UserByID userID).2.2 ≠ none ∨ (w.UserByID userID).2.1 ≠ 200) :
    GenInternalReset w userID = (InternalPWR.zero, (w.UserByID userID).2.2) := by
  unfold GenInternalReset
  simp only
  rw [if_pos h]

/-- C1, at the failing input: in the sample world `UserByID` answers the ID
`u2` with status 404 and a nil error, and `GenInternalReset` then returns the
empty record together with a nil error, so the caller is not told of the
failed lookup. -/
theorem GenInternalReset_status_failure_returns_nil_error :
    sampleWorld.UserByID "u2" = (⟨"", ""⟩, 404, none) ∧
      GenInternalReset sampleWorld "u2" = (InternalPWR.zero, none) := by
  decide

/-- C4: `GenResetLink` fails exactly when the configured base URL is empty,
then returning the configuration error and an empty link; otherwise it returns
no error and the base URL followed by `/reset?pin=` and the PIN, as for the
base `https://host/app` and the PIN `abc123`. -/
theorem GenResetLink_spec (w : World) (pin : String) :
    ((GenResetLink w pin).2 ≠ none ↔ w.urlBase = "") ∧
      (w.urlBase = "" → GenResetLink w pin = ("", some noURLBaseError)) ∧
      (w.urlBase ≠ "" → GenResetLink w pin = (w.urlBase ++ "/reset?pin=" ++ pin, none)) ∧
      (w.urlBase = "https://host/app" →
        GenResetLink w "abc123" = ("https://host/app/reset?pin=abc123", none)) := by
  unfold GenResetLink
  refine ⟨?_, ?_, ?_, ?_⟩
  · by_cases h : w.urlBase = "" <;> simp [h]
  · intro h
    simp [h]
  · intro h
    simp [h]
  · intro h
    rw [h]
    decide

theorem GenResetLink_spec_witness :
    GenResetLink bareWorld "abc123" = ("", some noURLBaseError) ∧
      GenResetLink sampleWorld "abc123" = ("https://host/app/reset?pin=abc123", none) ∧
      GenResetLink sampleWorld "xyz" = ("https://host/app" ++ "/reset?pin=" ++ "xyz", none) :=
  ⟨(GenResetLink_spec bareWorld "abc123").2.1 (by decide),
    (GenResetLink_spec sampleWorld "abc123").2.2.2 (by decide),
    (GenResetLink_spec sampleWorld "xyz").2.2.1 (by decide)⟩

/-- C5: when `UserByID` answers with no error and status 200, `GenInternalReset`
returns no error and the record made of the generated token, the name of the
looked-up user, the given ID, and the current time plus 30 minutes, which is
1800 seconds after, hence strictly after, the time of creation. -/
theorem GenInternalReset_success (w : World) (userID : String) (user : User)
    (h : w.UserByID userID = (user, 200, none)) :
    GenInternalReset w userID =
        ({ PIN := w.genAuthToken, Username := user.Name, ID := userID,
           Expiry := w.now + 30 * timeMinute }, none) ∧
      (GenInternalReset w userID).1.Expiry = w.now + 1800 * 1000000000 ∧
      w.now < (GenInternalReset w userID).1.Expiry := by
  have e : GenInternalReset w userID =
      ({ PIN := w.genAuthToken, Username := user.Name, ID := userID,
         Expiry := w.now + 30 * timeMinute }, none) := by
    unfold GenInternalReset
    rw [h]
    simp
  rw [e]
  refine ⟨rfl, ?_, ?_⟩
  · simp [timeMinute]
  · simp [timeMinute]

theorem GenInternalReset_success_witness :
    GenInternalReset sampleWorld "u1" = (⟨"tok", "alice", "u1", 1000 + 30 * timeMinute⟩, none) ∧
      (GenInternalReset sampleWorld "u1").1.Expiry = 1000 + 1800 * 1000000000 ∧
      (1000 : Int) < (GenInternalReset sampleWorld "u1").1.Expiry :=
  GenInternalReset_success sampleWorld "u1" ⟨"alice", "u1"⟩ (by decide)

/-! ## The event processor: the claims -/

/-- C2: for a record decoded from a reset file whose expiry is not strictly
after the current time (earlier by any amount, or equal), the processor reads
the file and writes two log lines (the new-reset line and the expired line),
makes no `UserByName` call, no `constructReset` call and no `sendByID` call,
and goes on with the next reception. -/
theorem expired_record_only_logs (w : World) (ev : Event) (rest : List (World × Recv))
    (h : Expired w ev) :
    (handleEvent w ev).actions =
        [.readFile ev.Name, .log .info (.NewPasswordReset (decoded w ev).Username),
          .log .err (.PWRExpired (decoded w ev).Username (decoded w ev).Expiry)] ∧
      lookups (handleEvent w ev).actions = [] ∧
      constructions (handleEvent w ev).actions = [] ∧
      deliveries (handleEvent w ev).actions = [] ∧
      pwrMonitor true ((w, .event ev) :: rest) =
        ⟨(handleEvent w ev).actions ++ (pwrMonitor true rest).trace,
          (pwrMonitor true rest).returned⟩ := by
  have e := handleEvent_expired w ev h
  refine ⟨by rw [e], by rw [e]; rfl, by rw [e]; rfl, by rw [e]; rfl, ?_⟩
  rw [pwrMonitor_enabled, pwrMonitor_enabled, monitorLoop_continue w ev rest (by rw [e])]

theorem expired_record_only_logs_witness :
    Expired lateWorld (writeOf "1") ∧
      (handleEvent lateWorld (writeOf "1")).actions =
        [.readFile "passwordreset-1.json", .log .info (.NewPasswordReset "alice"),
          .log .err (.PWRExpired "alice" 2000)] ∧
      deliveries (pwrMonitor true
        [(lateWorld, .event (writeOf "1")), (sampleWorld, .event (writeOf "1"))]).trace =
          [("reset abc123", "u1")] :=
  ⟨by decide,
    (expired_record_only_logs lateWorld (writeOf "1") [] (by decide)).1,
    by
      rw [(expired_record_only_logs lateWorld (writeOf "1")
        [(sampleWorld, .event (writeOf "1"))] (by decide)).2.2.2.2]
      decide⟩

/-- C3, refuted as stated: in the sample world the file of `dave` decodes to a
valid record with expiry after the current time and the user is looked up once,
yet no delivery call is made, since `dave` has no address. -/
theorem valid_record_without_delivery :
    Unexpired sampleWorld (writeOf "5") ∧
      lookups (handleEvent sampleWorld (writeOf "5")).actions = ["dave"] ∧
      (deliveries (handleEvent sampleWorld (writeOf "5")).actions).length ≠ 1 := by
  decide

/-- C3, amended: a write event on a reset file that decodes to a valid record
with expiry strictly after the current time makes exactly one `UserByName`
call, with the record's username, and at most one `sendByID` call; it makes
one exactly when the lookup succeeds, the address is non-empty and
`constructReset` succeeds. -/
theorem valid_record_one_lookup_at_most_one_delivery (w : World) (ev : Event)
    (h : Unexpired w ev) :
    lookups (handleEvent w ev).actions = [(decoded w ev).Username] ∧
      (deliveries (handleEvent w ev).actions).length ≤ 1 ∧
      ((deliveries (handleEvent w ev).actions).length = 1 ↔
        LookupOK w ev ∧ address w ev ≠ "" ∧ buildErr w ev = none) := by
  by_cases h5 : LookupOK w ev
  · by_cases h6 : address w ev = ""
    · rw [handleEvent_emptyAddress w ev ⟨⟨h, h5⟩, h6⟩]
      simp [lookups, deliveries, Action.asLookup, Action.asDelivery, h6]
    · by_cases h7 : buildErr w ev = none
      · rw [handleEvent_deliverable w ev ⟨⟨⟨h, h5⟩, h6⟩, h7⟩]
        simp only [lookups, deliveries, List.filterMap_cons, Action.asLookup, Action.asDelivery,
          List.filterMap_nil, List.length_cons, List.length_nil]
        exact ⟨trivial, le_refl _, fun _ => ⟨h5, h6, h7⟩, fun _ => trivial⟩
      · rw [handleEvent_constructFails w ev ⟨⟨⟨h, h5⟩, h6⟩, h7⟩]
        simp [lookups, deliveries, Action.asLookup, Action.asDelivery, h7]
  · rw [handleEvent_resolutionFails w ev ⟨h, h5⟩]
    simp only [lookups, deliveries, List.filterMap_cons, Action.asLookup, Action.asDelivery,
      List.filterMap_nil, List.length_nil]
    exact ⟨trivial, Nat.zero_le _, fun hc => absurd hc (by decide), fun hc => absurd hc.1 h5⟩

theorem valid_record_one_lookup_at_most_one_delivery_witness :
    lookups (handleEvent sampleWorld (writeOf "1")).actions = ["alice"] ∧
      (deliveries (handleEvent sampleWorld (writeOf "1")).actions).length ≤ 1 ∧
      ((deliveries (handleEvent sampleWorld (writeOf "1")).actions).length = 1 ↔
        LookupOK sampleWorld (writeOf "1") ∧ address sampleWorld (writeOf "1") ≠ "" ∧
          buildErr sampleWorld (writeOf "1") = none) :=
  valid_record_one_lookup_at_most_one_delivery sampleWorld (writeOf "1") (by decide)

/-- C6: for an event whose operation does not include the write bit, or whose
file name does not contain `passwordreset`, the processor does nothing at all
(no read, no lookup, no delivery, no log line) and goes on with the next
reception. -/
theorem irrelevant_event_ignored (w : World) (ev : Event) (rest : List (World × Recv))
    (h : ev.Op &&& fsnotifyWrite ≠ fsnotifyWrite ∨
      ¬ ∃ a b : List Char, ev.Name.data = a ++ "passwordreset".data ++ b) :
    handleEvent w ev = ⟨[], false⟩ ∧
      reads (handleEvent w ev).actions = [] ∧
      lookups (handleEvent w ev).actions = [] ∧
      deliveries (handleEvent w ev).actions = [] ∧
      logs (handleEvent w ev).actions = [] ∧
      pwrMonitor true ((w, .event ev) :: rest) = pwrMonitor true rest := by
  have hn : ¬ isResetWrite ev := by
    rintro ⟨h1, h2⟩
    rcases h with h | h
    · exact h h1
    · exact h ((stringsContains_iff _ _).mp h2)
  have e := handleEvent_skip w ev hn
  refine ⟨e, by rw [e]; rfl, by rw [e]; rfl, by rw [e]; rfl, by rw [e]; rfl, ?_⟩
  rw [pwrMonitor_enabled, pwrMonitor_enabled, monitorLoop_continue w ev rest (by rw [e]), e]
  rfl

theorem irrelevant_event_ignored_witness :
    handleEvent sampleWorld ⟨1, "passwordreset-1.json"⟩ = ⟨[], false⟩ ∧
      pwrMonitor true [(sampleWorld, .event ⟨1, "passwordreset-1.json"⟩),
        (sampleWorld, .event (writeOf "1"))] =
        pwrMonitor true [(sampleWorld, .event (writeOf "1"))] :=
  ⟨(irrelevant_event_ignored sampleWorld ⟨1, "passwordreset-1.json"⟩ []
      (Or.inl (by decide))).1,
    (irrelevant_event_ignored sampleWorld ⟨1, "passwordreset-1.json"⟩
      [(sampleWorld, .event (writeOf "1"))] (Or.inl (by decide))).2.2.2.2.2⟩

/-- C7: for a reset file that is read without error and whose contents fail to
decode, or decode to a record with an empty PIN, the processor writes the
failed-reading log line, makes no `UserByName` call and no `sendByID` call, and
goes on with the next reception. -/
theorem undecodable_file_discarded (w : World) (ev : Event) (rest : List (World × Recv))
    (h : DecodeFails w ev) :
    (handleEvent w ev).actions =
        [.readFile ev.Name, .log .debug (.FailedReading ev.Name (decodeErr w ev))] ∧
      lookups (handleEvent w ev).actions = [] ∧
      constructions (handleEvent w ev).actions = [] ∧
      deliveries (handleEvent w ev).actions = [] ∧
      pwrMonitor true ((w, .event ev) :: rest) =
        ⟨(handleEvent w ev).actions ++ (pwrMonitor true rest).trace,
          (pwrMonitor true rest).returned⟩ := by
  have e := handleEvent_decodeFails w ev h
  refine ⟨by rw [e], by rw [e]; rfl, by rw [e]; rfl, by rw [e]; rfl, ?_⟩
  rw [pwrMonitor_enabled, pwrMonitor_enabled, monitorLoop_continue w ev rest (by rw [e])]

theorem undecodable_file_discarded_witness :
    (handleEvent sampleWorld (writeOf "3")).actions =
        [.readFile "passwordreset-3.json",
          .log .debug (.FailedReading "passwordreset-3.json" (some "invalid character"))] ∧
      (handleEvent sampleWorld (writeOf "8")).actions =
        [.readFile "passwordreset-8.json",
          .log .debug (.FailedReading "passwordreset-8.json" none)] ∧
      deliveries (pwrMonitor true
        [(sampleWorld, .event (writeOf "3")), (sampleWorld, .event (writeOf "1"))]).trace =
          [("reset abc123", "u1")] :=
  ⟨(undecodable_file_discarded sampleWorld (writeOf "3") [] (by decide)).1,
    (undecodable_file_discarded sampleWorld (writeOf "8") [] (by decide)).1,
    by
      rw [(undecodable_file_discarded sampleWorld (writeOf "3")
        [(sampleWorld, .event (writeOf "1"))] (by decide)).2.2.2.2]
      decide⟩

/-- C8: for every finite sequence of valid reset events (readable, decodable,
unexpired, user resolved, address non-empty, message constructed) the processor
makes one delivery attempt per event, in arrival order, each for the message
and the user of its own event, and each is logged with the username and
recipient of its own event together with the outcome of the attempt; whatever
the outcomes, the processor is then still waiting for the next reception. -/
theorem valid_events_delivered_in_order (inputs : List (World × Event))
    (h : ∀ i ∈ inputs, Deliverable i.1 i.2) :
    deliveries (pwrMonitor true (eventsOf inputs)).trace =
        inputs.map (fun i => (built i.1 i.2, (lookupUser i.1 i.2).ID)) ∧
      deliveryReports (pwrMonitor true (eventsOf inputs)).trace =
        inputs.map (fun i => ((decoded i.1 i.2).Username, address i.1 i.2, sendErr i.1 i.2)) ∧
      (pwrMonitor true (eventsOf inputs)).returned = false := by
  rw [pwrMonitor_enabled]
  induction inputs with
  | nil => exact ⟨rfl, rfl, rfl⟩
  | cons x xs ih =>
    obtain ⟨w, ev⟩ := x
    have hx : Deliverable w ev := h (w, ev) (List.mem_cons_self _ _)
    obtain ⟨ih1, ih2, ih3⟩ := ih (fun i hi => h i (List.mem_cons_of_mem _ hi))
    have hexit : (handleEvent w ev).exit = false := by
      rw [handleEvent_deliverable w ev hx]
    have e : monitorLoop (eventsOf ((w, ev) :: xs)) =
        ⟨(handleEvent w ev).actions ++ (monitorLoop (eventsOf xs)).trace,
          (monitorLoop (eventsOf xs)).returned⟩ :=
      monitorLoop_continue w ev (eventsOf xs) hexit
    rw [e]
    refine ⟨?_, ?_, ih3⟩
    · show deliveries ((handleEvent w ev).actions ++ (monitorLoop (eventsOf xs)).trace) = _
      rw [deliveries_append, deliveries_deliverable w ev hx, ih1]
      rfl
    · show deliveryReports ((handleEvent w ev).actions ++ (monitorLoop (eventsOf xs)).trace) = _
      rw [deliveryReports_append, deliveryReports_deliverable w ev hx, ih2]
      rfl

theorem valid_events_delivered_in_order_witness :
    deliveries (pwrMonitor true
        (eventsOf [(sampleWorld, writeOf "2"), (sampleWorld, writeOf "1")])).trace =
        [("reset def456", "u2"), ("reset abc123", "u1")] ∧
      deliveryReports (pwrMonitor true
        (eventsOf [(sampleWorld, writeOf "2"), (sampleWorld, writeOf "1")])).trace =
        [("bob", "bob@example.org", some "smtp down"), ("alice", "alice@example.org", none)] ∧
      (pwrMonitor true
        (eventsOf [(sampleWorld, writeOf "2"), (sampleWorld, writeOf "1")])).returned = false :=
  valid_events_delivered_in_order [(sampleWorld, writeOf "2"), (sampleWorld, writeOf "1")]
    (by decide)

/-- C9: a file-read failure and a user-resolution failure make the processor
return: the run is the same whatever was to arrive afterwards, so no later
event is read, looked up or delivered; after a decode failure, an expired
record, an empty address, a construction failure or a send failure the
processor goes on with the receptions that follow. -/
theorem loop_ends_on_read_or_resolution_failure (w : World) (ev : Event)
    (pre rest : List (World × Recv)) :
    ((ReadFails w ev ∨ ResolutionFails w ev) →
        pwrMonitor true (pre ++ (w, .event ev) :: rest) =
          pwrMonitor true (pre ++ [(w, .event ev)]) ∧
        (pwrMonitor true (pre ++ (w, .event ev) :: rest)).returned = true ∧
        pwrMonitor true ((w, .event ev) :: rest) = ⟨(handleEvent w ev).actions, true⟩) ∧
      ((DecodeFails w ev ∨ Expired w ev ∨ EmptyAddress w ev ∨ ConstructFails w ev
          ∨ SendFails w ev) →
        pwrMonitor true ((w, .event ev) :: rest) =
          ⟨(handleEvent w ev).actions ++ (pwrMonitor true rest).trace,
            (pwrMonitor true rest).returned⟩) := by
  simp only [pwrMonitor_enabled]
  constructor
  · intro h
    have hexit : (handleEvent w ev).exit = true := by
      rcases h with h | h
      · rw [handleEvent_readFails w ev h]
      · rw [handleEvent_resolutionFails w ev h]
    exact ⟨monitorLoop_exit_cuts w ev hexit pre rest,
      monitorLoop_exit_returned w ev hexit pre rest, monitorLoop_exit w ev rest hexit⟩
  · intro h
    have hexit : (handleEvent w ev).exit = false := by
      rcases h with h | h | h | h | h
      · rw [handleEvent_decodeFails w ev h]
      · rw [handleEvent_expired w ev h]
      · rw [handleEvent_emptyAddress w ev h]
      · rw [handleEvent_constructFails w ev h]
      · rw [handleEvent_deliverable w ev h.1]
    exact monitorLoop_continue w ev rest hexit

theorem loop_ends_on_read_or_resolution_failure_witness :
    pwrMonitor true [(sampleWorld, .event (writeOf "2")), (sampleWorld, .event (writeOf "7")),
        (sampleWorld, .event (writeOf "1"))] =
      pwrMonitor true [(sampleWorld, .event (writeOf "2")), (sampleWorld, .event (writeOf "7"))] ∧
    pwrMonitor true [(sampleWorld, .event (writeOf "4")), (sampleWorld, .event (writeOf "1"))] =
      ⟨(handleEvent sampleWorld (writeOf "4")).actions, true⟩ ∧
    pwrMonitor true [(sampleWorld, .event (writeOf "6")), (sampleWorld, .event (writeOf "1"))] =
      ⟨(handleEvent sampleWorld (writeOf "6")).actions ++
          (pwrMonitor true [(sampleWorld, .event (writeOf "1"))]).trace,
        (pwrMonitor true [(sampleWorld, .event (writeOf "1"))]).returned⟩ :=
  ⟨((loop_ends_on_read_or_resolution_failure sampleWorld (writeOf "7")
      [(sampleWorld, .event (writeOf "2"))] [(sampleWorld, .event (writeOf "1"))]).1
      (Or.inl (by decide))).1,
    ((loop_ends_on_read_or_resolution_failure sampleWorld (writeOf "4") []
      [(sampleWorld, .event (writeOf "1"))]).1 (Or.inr (by decide))).2.2,
    (loop_ends_on_read_or_resolution_failure sampleWorld (writeOf "6") []
      [(sampleWorld, .event (writeOf "1"))]).2 (Or.inr (Or.inr (Or.inr (Or.inl (by decide)))))⟩

/-- C10: handling an event attempts a delivery if and only if the event is a
write on a marked file, the file is read, it decodes without error to a record
with non-empty PIN, the expiry is strictly after the current time, `UserByName`
answers status 200 or 204 with no error and a non-empty ID, the address of that
ID is non-empty and `constructReset` succeeds; the delivery is then attempted
once, with the message built for the decoded record as decoded and with the ID
the lookup returned, and never more than once. An empty address gives no
construction, no delivery and no line on the error logger; a construction
failure gives no delivery. -/
theorem delivery_iff_all_checks_pass (w : World) (ev : Event) :
    (deliveries (handleEvent w ev).actions ≠ [] ↔ Deliverable w ev) ∧
      (Deliverable w ev →
        deliveries (handleEvent w ev).actions = [(built w ev, (lookupUser w ev).ID)] ∧
        constructions (handleEvent w ev).actions = [(decoded w ev, false)]) ∧
      (deliveries (handleEvent w ev).actions).length ≤ 1 ∧
      (EmptyAddress w ev →
        constructions (handleEvent w ev).actions = [] ∧
        deliveries (handleEvent w ev).actions = [] ∧
        ∀ e, (Level.err, e) ∉ logs (handleEvent w ev).actions) ∧
      (ConstructFails w ev → deliveries (handleEvent w ev).actions = []) := by
  refine ⟨⟨?_, ?_⟩, ?_, ?_, ?_, ?_⟩
  · intro hne
    by_contra hd
    exact hne (deliveries_not_deliverable w ev hd)
  · intro hd
    rw [deliveries_deliverable w ev hd]
    exact List.cons_ne_nil _ _
  · intro hd
    exact ⟨deliveries_deliverable w ev hd, constructions_deliverable w ev hd⟩
  · by_cases hd : Deliverable w ev
    · rw [deliveries_deliverable w ev hd]
      exact le_refl _
    · rw [deliveries_not_deliverable w ev hd]
      exact Nat.zero_le _
  · intro he
    rw [handleEvent_emptyAddress w ev he]
    refine ⟨rfl, rfl, ?_⟩
    intro e hm
    simp [logs, Action.asLog] at hm
  · intro hc
    rw [handleEvent_constructFails w ev hc]
    rfl

theorem delivery_iff_all_checks_pass_witness :
    deliveries (handleEvent sampleWorld (writeOf "1")).actions = [("reset abc123", "u1")] ∧
      constructions (handleEvent sampleWorld (writeOf "5")).actions = [] ∧
      deliveries (handleEvent sampleWorld (writeOf "6")).actions = [] :=
  ⟨((delivery_iff_all_checks_pass sampleWorld (writeOf "1")).2.1 (by decide)).1,
    ((delivery_iff_all_checks_pass sampleWorld (writeOf "5")).2.2.2.1 (by decide)).1,
    (delivery_iff_all_checks_pass sampleWorld (writeOf "6")).2.2.2.2 (by decide)⟩

end PWReset
